import Mathlib

/-!
Shallow embedding of the huawei-net-forensics repository (src/forensics.py,
src/measurements.py, src/main.py).

Conventions of the embedding:
* Python floats are modelled as exact rationals (`ℚ`); binary floating-point
  rounding is not modelled.
* Python `dict.get(key, default)` on optional inputs becomes `Option.getD`;
  an absent dict (`None`) is `Option.none`.
* Python exceptions are modelled with `Except Unit`: `.error ()` marks the
  places where the source raises.
* `statistics.stdev`/`pstdev` involve a square root.  Where the source only
  *compares* a coefficient of variation against a bound, the comparison is
  embedded as the equivalent comparison of the (rational) variance against
  the squared bound (valid because both sides are nonnegative and the mean
  is positive on that path).  Where the source *stores* a value derived from
  a square root, the square root is abstracted as a function parameter `sq`
  and every theorem quantifies over it.
-/

/-- `statistics.mean`: sum divided by length.  (Python raises on an empty
list; every call site below guards non-emptiness, and on `[]` this rational
version returns `0`.) -/
def mean (l : List ℚ) : ℚ := l.sum / (l.length : ℚ)

/-- Sample variance (denominator `n - 1`), the square of `statistics.stdev`.
Only used for lists of length ≥ 2. -/
def svariance (l : List ℚ) : ℚ :=
  (l.map (fun x => (x - mean l) ^ 2)).sum / ((l.length : ℚ) - 1)

/-- Population variance (denominator `n`), the square of `statistics.pstdev`. -/
def pvariance (l : List ℚ) : ℚ :=
  (l.map (fun x => (x - mean l) ^ 2)).sum / (l.length : ℚ)

/-- Python `round(x)` ties-to-even (banker's rounding), on exact rationals. -/
def roundHalfEven (q : ℚ) : ℤ :=
  if q - (⌊q⌋ : ℚ) < 1/2 then ⌊q⌋
  else if q - (⌊q⌋ : ℚ) > 1/2 then ⌊q⌋ + 1
  else if ⌊q⌋ % 2 = 0 then ⌊q⌋ else ⌊q⌋ + 1

/-- Python `round(x, 2)`. -/
def round2 (q : ℚ) : ℚ := (roundHalfEven (100 * q) : ℚ) / 100

/-! ## src/forensics.py : ForensicsEngine -/

/-- The signal dict produced by a provider (only the fields the analysed
code reads).  `score` is the rf score and may itself be absent. -/
structure SignalData where
  score : Option ℚ
  band : Option String
  pci : Option String
  enodeb : Option String
  sinr : Option ℚ
  rsrq : Option ℚ
  rsrp : Option ℚ
deriving Repr, DecidableEq

/-- The network dict handed to `ForensicsEngine.analyze`; every field is
optional because `_extract_metrics` defaults each one.  The field
`ramp_up` embeds the dict key `ramp_up_ratio`. -/
structure NetworkData where
  down_mbps : Option ℚ
  latency : Option ℚ
  jitter : Option ℚ
  packet_loss : Option ℚ
  ramp_up : Option ℚ
  consistency_score : Option ℚ
  latency_under_load_diff : Option ℚ
  shapes : Option (List String)
deriving Repr, DecidableEq

/-- The history dict built by `get_history_analysis` in src/main.py. -/
structure HistoryContext where
  is_stable_hour : Bool
  policy_count : ℕ
  monthly_bytes : ℚ
deriving Repr, DecidableEq

/-- The metrics dict built by `ForensicsEngine._extract_metrics`. -/
structure Metrics where
  rf_score : Option ℚ
  down_mbps : ℚ
  latency : ℚ
  jitter : ℚ
  packet_loss : ℚ
  ramp_up : ℚ
  consistency : ℚ
  latency_diff : ℚ
  shapes : List String
deriving Repr, DecidableEq

/-- `ForensicsEngine._extract_metrics`.  `signal_data.get("score") if
signal_data else None` guards a `None` signal dict, but `network_data.get(...)`
is unguarded: a `None` network dict raises `AttributeError`, embedded as
`.error ()`. -/
def extract_metrics (signal_data : Option SignalData) (network_data : Option NetworkData) :
    Except Unit Metrics :=
  match network_data with
  | none => .error ()
  | some nd => .ok
      { rf_score := signal_data.bind SignalData.score
        down_mbps := nd.down_mbps.getD 0
        latency := nd.latency.getD 0
        jitter := nd.jitter.getD 0
        packet_loss := nd.packet_loss.getD 0
        ramp_up := nd.ramp_up.getD 1
        consistency := nd.consistency_score.getD (1/2)
        latency_diff := nd.latency_under_load_diff.getD 0
        shapes := nd.shapes.getD [] }

/-- `ForensicsEngine._calculate_radio` (thresholds 30 / 50 / 70 / 85). -/
def calculate_radio (rf_score : Option ℚ) : ℚ :=
  match rf_score with
  | none => 1/10
  | some s =>
    if s < 30 then 19/20
    else if s < 50 then 4/5
    else if s < 70 then 2/5
    else if s > 85 then 1/20
    else 0

/-- `ForensicsEngine._calculate_congestion`. -/
def calculate_congestion (m : Metrics) : ℚ :=
  let score : ℚ := 0
  let score := if m.latency_diff > 50 then score + 2/5
    else if m.latency_diff > 20 then score + 1/5 else score
  let score := if m.jitter > 30 then score + 3/10 else score
  let score := if m.packet_loss > 2 then score + 1/5 else score
  let score := if m.shapes.contains ("linear_climb") then score + 1/5 else score
  let score := if m.down_mbps > 50 then score * (1/10) else score
  min 1 score

/-- `ForensicsEngine._calculate_policy`. -/
def calculate_policy (m : Metrics) (history : Option HistoryContext) : ℚ :=
  let is_slow := m.down_mbps < 10
  let score : ℚ := 0
  let score := if m.consistency > 4/5 then score + 1/2
    else if m.consistency > 3/5 then score + 3/10 else score
  let plateau_count := m.shapes.count ("plateau")
  let score := if plateau_count ≥ 2 then score + 2/5
    else if plateau_count = 1 then score + 1/5 else score
  let score := match history with
    | some h => if h.is_stable_hour then score + 3/10 else score
    | none => score
  let score := if m.ramp_up > 6/5 then score + 1/10 else score
  let score := if ¬ is_slow then score * (1/2) else score
  min 1 score

/-- `ForensicsEngine._apply_counter_evidence`. -/
def apply_counter_evidence (policy_score : ℚ) (m : Metrics) : ℚ :=
  let s := if m.jitter > 100 then policy_score * (1/2) else policy_score
  let s := if m.latency_diff > 200 then s * (3/5) else s
  let s := match m.rf_score with
    | some rf => if rf < 40 then s * (2/5) else s
    | none => s
  s

/-- `ForensicsEngine._is_confident`. -/
def is_confident (history : Option HistoryContext) : Bool :=
  match history with
  | none => false
  | some h => h.policy_count ≥ 3

/-- `ForensicsEngine._normalize`: scale all three likelihoods by
`0.95 / total`.  (Named `normalize_likelihoods` because Mathlib already
has a `normalize`.) -/
def normalize_likelihoods (r c p total : ℚ) : ℚ × ℚ × ℚ :=
  let factor := (19/20) / total
  (r * factor, c * factor, p * factor)

/-- `ForensicsEngine._get_verdict`. -/
def get_verdict (r c p : ℚ) : String :=
  let mx := max r (max c p)
  if mx < 2/5 then "Inconclusive / Gathering Data"
  else if r = mx then "Radio Impairment Likely"
  else if c = mx then "Congestion Indicators Present"
  else if p = mx then "Policy-Like Pattern Detected"
  else "Mixed Signals"

/-- The dict returned by `ForensicsEngine.analyze`. -/
structure DiagnosisResult where
  radio_likelihood : ℚ
  congestion_likelihood : ℚ
  policy_likelihood : ℚ
  verdict : String
  consistency_score : ℚ
deriving Repr, DecidableEq

/-- `ForensicsEngine.analyze`.  Side-effect free in the source; the `Except`
layer records the `AttributeError` of `_extract_metrics` on a `None`
network dict. -/
def analyze (signal_data : Option SignalData) (network_data : Option NetworkData)
    (history : Option HistoryContext := none) : Except Unit DiagnosisResult :=
  match extract_metrics signal_data network_data with
  | .error e => .error e
  | .ok metrics =>
    let radio := calculate_radio metrics.rf_score
    let congestion := calculate_congestion metrics
    let policy := calculate_policy metrics history
    let policy := apply_counter_evidence policy metrics
    let total := radio + congestion + policy
    let rcp := if total > 19/20 then normalize_likelihoods radio congestion policy total
      else (radio, congestion, policy)
    let verdict := get_verdict rcp.1 rcp.2.1 rcp.2.2
    let verdict := if verdict.startsWith ("Policy") && ! is_confident history
      then "Observed, low confidence" else verdict
    .ok
      { radio_likelihood := round2 rcp.1
        congestion_likelihood := round2 rcp.2.1
        policy_likelihood := round2 rcp.2.2
        verdict := verdict
        consistency_score := metrics.consistency }

/-! ## src/measurements.py -/

/-- The `cv < 0.15` test of `analyze_shape`.  The source computes
`var = statistics.stdev(steady_state) if len(steady_state) > 1 else 0` and
tests `var / avg < 0.15`.  Since `stdev ≥ 0` and this path has `avg ≥ 0.1 > 0`,
`stdev / avg < 0.15  ↔  svariance < (0.15 * avg)^2`, which is how the test is
embedded (exactly, in `ℚ`). -/
def cv_below_threshold (steady_state : List ℚ) (avg : ℚ) : Bool :=
  if steady_state.length > 1 then
    decide (svariance steady_state < ((3/20) * avg) ^ 2)
  else true

/-- `analyze_shape` in src/measurements.py.  `samples` is a list of
`(time_offset, mbps)` pairs.  The final branch of the source reads
`statistics.linear_regression(times, mbps_values)` where the variable `times`
is never defined, so on Python ≥ 3.10 reaching that branch raises an uncaught
`NameError` (the surrounding `except` only catches `AttributeError` and
`ValueError`); this is embedded as `.error ()`.  In particular neither
`"linear_climb"` nor `"logarithmic"` is ever returned on such interpreters. -/
def analyze_shape (samples : List (ℚ × ℚ)) : Except Unit String :=
  if samples.length < 4 then .ok ("uncertain")
  else
    let mbps_values := samples.map Prod.snd
    let steady_state := mbps_values.drop (mbps_values.length / 4)
    if steady_state.isEmpty then .ok ("uncertain")
    else
      let avg := mean steady_state
      if avg < 1/10 then .ok ("uncertain")
      else if cv_below_threshold steady_state avg then .ok ("plateau")
      else .error ()

/-- One successful `run_single_download` result together with the in-flight
ping RTTs gathered while it ran (`dl_res['ping_during']`, `None` entries
already filtered out, as in the source). -/
structure DlResult where
  mbps : ℚ
  shape : String
  total_bytes : ℚ
  ping_during : List ℚ
deriving Repr, DecidableEq

/-- The `aggregated_metrics` dict of `run_forensic_download` (the `timestamp`
and `upload_mbps` fields are constants in the source; `ramp_up` embeds the
dict key `ramp_up_ratio`). -/
structure Aggregated where
  download_mbps : ℚ
  upload_mbps : ℚ
  ramp_up : ℚ
  consistency_score : ℚ
  shapes : List String
  latency_under_load_diff : ℚ
  total_bytes : ℚ
deriving Repr, DecidableEq

/-- The consistency computation of `run_forensic_download` lines 222–224:
updated from the cross-target coefficient of variation only when more than
one target succeeded, otherwise left at its initial value `1.0`.  `sq`
abstracts `math.sqrt`, so `sq (svariance l)` stands for `statistics.stdev l`. -/
def consistency_of (sq : ℚ → ℚ) (mbps_vals : List ℚ) (avg_mbps : ℚ) : ℚ :=
  if mbps_vals.length > 1 then
    max 0 (1 - (if avg_mbps > 0 then sq (svariance mbps_vals) / avg_mbps else 0) * 2)
  else 1

/-- The pure aggregation performed by `run_forensic_download` (lines 184–248)
over the successful per-target download results.  `ping_before` is
`run_ping(count=5)`'s average RTT (`none` when that baseline ping failed, in
which case the source uses `base_latency = 0`).  Returns `none` when every
download failed (`if not results: return None`).  The network/thread
machinery itself is I/O and is not modelled; `sq` abstracts `math.sqrt`. -/
def aggregate_forensic (sq : ℚ → ℚ) (ping_before : Option ℚ) (results : List DlResult) :
    Option Aggregated :=
  match results with
  | [] => none
  | first_success :: rest =>
    let base_latency := ping_before.getD 0
    let mbps_vals := (first_success :: rest).map DlResult.mbps
    let avg_mbps := mean mbps_vals
    let all_during_pings := ((first_success :: rest).map DlResult.ping_during).flatten
    let lat_diff := if all_during_pings.isEmpty then 0
      else mean all_during_pings - base_latency
    let ramp := if first_success.shape = ("plateau") then 1
      else if first_success.shape = ("linear_climb") then 1/2
      else 3/2
    some
      { download_mbps := round2 avg_mbps
        upload_mbps := 0
        ramp_up := ramp
        consistency_score := consistency_of sq mbps_vals avg_mbps
        shapes := (first_success :: rest).map DlResult.shape
        latency_under_load_diff := lat_diff
        total_bytes := ((first_success :: rest).map DlResult.total_bytes).sum }

/-! ## src/main.py -/

/-- The per-row result of `_process_row`: the bytes counted towards the
30-day total, the score when the row falls in the same hour of the last 7
days, and whether its verdict was policy-flagged in the last 7 days.
(The CSV/datetime parsing of `_process_row` itself is I/O-bound and is the
boundary of the embedding: `get_history_analysis` is modelled over the list
of these per-row results.) -/
structure RowRes where
  bytes : ℚ
  score : Option ℚ
  policy : Bool
deriving Repr, DecidableEq

/-- The neutral history context returned on a missing store or a read
failure. -/
def neutral_history : HistoryContext :=
  { is_stable_hour := false, policy_count := 0, monthly_bytes := 0 }

/-- `get_history_analysis` in src/main.py.  `store` is the outcome of
reading `history_v2.csv`: `.error ()` covers both a missing file and any
exception while reading/aggregating (both return the neutral context in the
source).  Stability is `len(hour_scores) > 5 and pstdev(hour_scores) < 10`;
since `pstdev ≥ 0` the test `pstdev < 10` is embedded exactly as
`pvariance < 100`. -/
def get_history_analysis (store : Except Unit (List RowRes)) : HistoryContext :=
  match store with
  | .error _ => neutral_history
  | .ok rows =>
    let hour_scores := rows.filterMap RowRes.score
    let policy_count := (rows.filter RowRes.policy).length
    let monthly_bytes := (rows.map RowRes.bytes).sum
    { is_stable_hour := hour_scores.length > 5 && decide (pvariance hour_scores < 100)
      policy_count := policy_count
      monthly_bytes := monthly_bytes }

/-- `MAX_DAILY_tests` in src/main.py. -/
def MAX_DAILY_tests : ℕ := 12

/-- `PSI_TRIGGER_THRESHOLD` in src/main.py. -/
def PSI_TRIGGER_THRESHOLD : ℚ := 50

/-- `BASELINE_INTERVAL_SECONDS` in src/main.py. -/
def BASELINE_INTERVAL_SECONDS : ℚ := 4 * 3600

/-- The test-budget fields of `Monitor` used by
`execute_speedtest_if_needed`. -/
structure BudgetState where
  daily_tests_count : ℕ
  last_speedtest_time : ℚ
deriving Repr, DecidableEq

/-- `Monitor.execute_speedtest_if_needed`.  `nowT` is `time.time()` (the
source samples the clock once for the elapsed check and again when
recording a success; the embedding uses a single instant, which only
shifts the recorded timestamp by the test's own duration); `outcome` is
the result of `run_forensic_download(duration=10) or run_speedtest()` when
actually invoked (`none` = both failed; the payload is irrelevant to budget
handling, so it is `Unit`).  Returns the new budget state, whether a test
was triggered (the download path was invoked), and the result handed back
to the caller. -/
def execute_speedtest_if_needed (st : BudgetState) (psi nowT : ℚ) (outcome : Option Unit) :
    BudgetState × Bool × Option Unit :=
  if st.daily_tests_count ≥ MAX_DAILY_tests then (st, false, none)
  else
    let ts := nowT - st.last_speedtest_time
    if ts > BASELINE_INTERVAL_SECONDS ∨ (psi > PSI_TRIGGER_THRESHOLD ∧ ts > 900) then
      match outcome with
      | some res =>
        ({ daily_tests_count := st.daily_tests_count + 1, last_speedtest_time := nowT },
          true, some res)
      | none => (st, true, none)
    else (st, false, none)

/-- The `Monitor.current_session` dict (its `start_time` is wall-clock and
is not modelled; the emitted row's timestamp/duration fields are likewise
dropped). -/
structure CellSession where
  band : Option String
  pci : Option String
  enodeb : Option String
  total_score : ℚ
  total_sinr : ℚ
  total_rsrq : ℚ
  total_rsrp : ℚ
  sample_count : ℕ
deriving Repr, DecidableEq

/-- A row of `cell_history.csv` as written by `handle_context_change`
(time fields dropped: wall-clock is not modelled). -/
structure CellRow where
  band : Option String
  pci : Option String
  enodeb : Option String
  avg_score : ℚ
  avg_sinr : ℚ
  avg_rsrq : ℚ
  avg_rsrp : ℚ
  sample_count : ℕ
deriving Repr, DecidableEq

/-- The session-tracking fields of `Monitor`.  The `windows` deques, the
live-state dict, the wall-clock timestamps, `check_day_rollover` (which
only touches the daily test budget) and the 90-second `process_window`
path are omitted: none of them read or write
`current_key`/`current_session`, which is what session finalization (and
claim C9) is about. -/
structure MonState where
  current_key : Option String
  current_session : Option CellSession
deriving Repr, DecidableEq

/-- `Monitor.__init__`: no key, no session yet. -/
def initMonState : MonState := { current_key := none, current_session := none }

/-- `Monitor.get_key_and_score`.  A Python f-string renders `None` as the
text `"None"`. -/
def get_key_and_score (d : SignalData) : String × ℚ :=
  match d.score with
  | none => ("NETWORK_ONLY", 0)
  | some s => ((d.band.getD ("None")) ++ (":") ++ (d.pci.getD ("None")) ++ (":")
      ++ (d.enodeb.getD ("None")), s)

/-- `Monitor.handle_context_change`.  If a current session exists, the
source unconditionally computes `total_score / sample_count` (and the other
three averages): with `sample_count == 0` that raises `ZeroDivisionError`,
embedded as `.error ()`.  Otherwise it emits the averaged row and installs a
fresh zero session for the new key. -/
def handle_context_change (st : MonState) (key : String) (d : SignalData) :
    Except Unit (MonState × Option CellRow) :=
  let fresh : CellSession :=
    { band := d.band, pci := d.pci, enodeb := d.enodeb,
      total_score := 0, total_sinr := 0, total_rsrq := 0, total_rsrp := 0,
      sample_count := 0 }
  match st.current_session with
  | none =>
    .ok ({ current_key := some key, current_session := some fresh }, none)
  | some s =>
    if s.sample_count = 0 then .error ()
    else
      let n : ℚ := (s.sample_count : ℚ)
      let row : CellRow :=
        { band := s.band, pci := s.pci, enodeb := s.enodeb,
          avg_score := round2 (s.total_score / n),
          avg_sinr := round2 (s.total_sinr / n),
          avg_rsrq := round2 (s.total_rsrq / n),
          avg_rsrp := round2 (s.total_rsrp / n),
          sample_count := s.sample_count }
      .ok ({ current_key := some key, current_session := some fresh }, some row)

/-- `Monitor.update_session`: accumulate the score and the (defaulted)
radio metrics into the current session, if any. -/
def update_session (st : MonState) (score : ℚ) (d : SignalData) : MonState :=
  match st.current_session with
  | none => st
  | some s =>
    let s2 : CellSession :=
      { s with
        total_score := s.total_score + score
        total_sinr := s.total_sinr + d.sinr.getD 0
        total_rsrq := s.total_rsrq + d.rsrq.getD 0
        total_rsrp := s.total_rsrp + d.rsrp.getD 0
        sample_count := s.sample_count + 1 }
    { st with current_session := some s2 }

/-- One `Monitor.tick` restricted to the session-tracking state: provider
returning `None` is a no-op; otherwise the key is compared with
`current_key` (a context change finalizes the old session) and the new
sample is accumulated by `update_session`.  The result carries the cell
row emitted to `cell_history.csv`, if any. -/
def tick (st : MonState) (data : Option SignalData) :
    Except Unit (MonState × Option CellRow) :=
  match data with
  | none => .ok (st, none)
  | some d =>
    let ks := get_key_and_score d
    match (if some ks.1 ≠ st.current_key then handle_context_change st ks.1 d
        else .ok (st, none)) with
    | .error e => .error e
    | .ok (st1, row) => .ok (update_session st1 ks.2 d, row)

/-- The orchestrator states reachable from the initial `Monitor` state
through successful ticks. -/
inductive Reachable : MonState → Prop
  | init : Reachable initMonState
  | step {st st1 : MonState} {d : Option SignalData} {row : Option CellRow} :
      Reachable st → tick st d = .ok (st1, row) → Reachable st1

/-- The number of samples accumulated in the current session (`0` when no
session is open). -/
def session_samples (st : MonState) : ℕ :=
  match st.current_session with
  | none => 0
  | some s => s.sample_count

/-- The emitted row of a tick outcome (`none` on error or when nothing was
written). -/
def emitted_row (out : Except Unit (MonState × Option CellRow)) : Option CellRow :=
  match out with
  | .ok (_, row) => row
  | .error _ => none


/-! ## Test inputs used by the concrete theorems -/

/-- A signal dict carrying only an rf score. -/
def test_signal (q : Option ℚ) : SignalData :=
  { score := q, band := none, pci := none, enodeb := none,
    sinr := none, rsrq := none, rsrp := none }

/-- A network dict on which radio, congestion and policy all come out `0.4`:
rf score 60, slow 5 Mbps link, 60 ms latency rise under load and two
plateau-shaped downloads. -/
def test_network_c3 : NetworkData :=
  { down_mbps := some 5, latency := some 0, jitter := some 0,
    packet_loss := some 0, ramp_up := some 1, consistency_score := some (1/2),
    latency_under_load_diff := some 60, shapes := some [("plateau"), ("plateau")] }

/-- A single-target download result used by the C7 theorems. -/
def test_dl (pings : List ℚ) : DlResult :=
  { mbps := 5, shape := ("plateau"), total_bytes := 0, ping_during := pings }

/-- The aggregate produced from `test_dl [100]` with a 20 ms baseline. -/
def test_agg_c7 : Aggregated :=
  { download_mbps := 5, upload_mbps := 0, ramp_up := 1, consistency_score := 1,
    shapes := [("plateau")], latency_under_load_diff := 80, total_bytes := 0 }

/-- The invariant maintained by `tick`: either no session is open, or the
open session has accumulated at least one sample (so finalization never
divides by zero). -/
def session_invariant (st : MonState) : Prop :=
  st.current_session = none ∨ ∃ s, st.current_session = some s ∧ 1 ≤ s.sample_count

/-! ## Theorems -/

/-- Claim C1 (code bug): with fewer than 4 samples `analyze_shape` returns
`uncertain`, and the steady-state plateau test behaves as specified
(`[10, 10.1, 9.9, 10.05]` yields `plateau`); but the monotonically rising
samples `[1,3,5,7,9,11]` reach the regression branch, which evaluates the
undefined variable `times` and raises an uncaught `NameError` instead of
returning `linear_climb`. -/
theorem analyze_shape_c1 :
    analyze_shape [(0, 1), (1, 3), (2, 5), (3, 7), (4, 9), (5, 11)] = .error ()
    ∧ analyze_shape [(0, 10), (1, 101/10), (2, 99/10), (3, 201/20)] = .ok ("plateau")
    ∧ analyze_shape [(0, 1), (1, 2), (2, 3)] = .ok ("uncertain") := by
  refine ⟨?_, ?_, ?_⟩ <;> with_unfolding_all rfl

/-- Claim C2, counterexample: the radio likelihood is not non-increasing on
known scores in `[0, 100]`: it is `0` at score 80 but `0.05` at score 90. -/
theorem calculate_radio_c2_counterexample :
    (80 : ℚ) ≤ 90 ∧ calculate_radio (some 80) < calculate_radio (some 90) := by
  refine ⟨by norm_num, ?_⟩
  have h1 : calculate_radio (some 80) = 0 := by with_unfolding_all rfl
  have h2 : calculate_radio (some 90) = 1/20 := by with_unfolding_all rfl
  rw [h1, h2]; norm_num

/-- Claim C2, amended: the radio likelihood follows the §4.1 step table
(`< 30 → 0.95`, `< 50 → 0.80`, `< 70 → 0.40`, `> 85 → 0.05`, otherwise `0`)
and an unknown score yields exactly `0.10`; the function is non-increasing
only on scores `≤ 85` (monotonicity fails across the `> 85` step, where the
value rises from `0` back to `0.05`). -/
theorem calculate_radio_c2_amended :
    (∀ x y : ℚ, x ≤ y → y ≤ 85 → calculate_radio (some y) ≤ calculate_radio (some x))
    ∧ (∀ s : ℚ, s < 30 → calculate_radio (some s) = 19/20)
    ∧ (∀ s : ℚ, 30 ≤ s → s < 50 → calculate_radio (some s) = 4/5)
    ∧ (∀ s : ℚ, 50 ≤ s → s < 70 → calculate_radio (some s) = 2/5)
    ∧ (∀ s : ℚ, 70 ≤ s → s ≤ 85 → calculate_radio (some s) = 0)
    ∧ (∀ s : ℚ, 85 < s → calculate_radio (some s) = 1/20)
    ∧ calculate_radio none = 1/10 := by
  refine ⟨?_, ?_, ?_, ?_, ?_, ?_, rfl⟩
  · intro x y hxy hy
    simp only [calculate_radio]
    split_ifs <;> linarith
  · intro s hs
    simp only [calculate_radio]
    split_ifs <;> first | rfl | linarith
  · intro s hs1 hs2
    simp only [calculate_radio]
    split_ifs <;> first | rfl | linarith
  · intro s hs1 hs2
    simp only [calculate_radio]
    split_ifs <;> first | rfl | linarith
  · intro s hs1 hs2
    simp only [calculate_radio]
    split_ifs <;> first | rfl | linarith
  · intro s hs
    simp only [calculate_radio]
    split_ifs <;> first | rfl | linarith

/-- Witness for the amended C2 statement at concrete scores. -/
theorem calculate_radio_c2_amended_witness :
    calculate_radio (some 40) ≤ calculate_radio (some 20)
    ∧ calculate_radio (some 95) = 1/20 :=
  ⟨calculate_radio_c2_amended.1 20 40 (by norm_num) (by norm_num),
   calculate_radio_c2_amended.2.2.2.2.2.1 95 (by norm_num)⟩

/-- Claim C4, counterexample: `analyze` with an absent (`None`) network dict
raises `AttributeError` inside `_extract_metrics` (`network_data.get` is not
guarded the way `signal_data` is). -/
theorem analyze_c4_counterexample :
    analyze (some (test_signal (some 50))) none none = .error () := by
  with_unfolding_all rfl

/-- Claim C4, amended: whenever the network dict itself is present,
`analyze` never errors (and, as a pure function of its arguments, has no
side effects), for every combination of present and missing fields: an
absent signal dict or absent `rf_score` is the unknown case and every
missing network field is defaulted. -/
theorem analyze_c4_amended (signal_data : Option SignalData) (nd : NetworkData)
    (history : Option HistoryContext) :
    (analyze signal_data (some nd) history).isOk = true := rfl

/-- Claim C10: when exactly one probe target succeeds, the aggregated
`consistency_score` is the initial default `1.0` (the cross-target update
only runs with at least two throughput values), for every abstracted
square root and every baseline-ping outcome. -/
theorem aggregate_c10_single_target (sq : ℚ → ℚ) (ping_before : Option ℚ) (r : DlResult) :
    (aggregate_forensic sq ping_before [r]).map Aggregated.consistency_score = some 1 := by
  simp [aggregate_forensic, consistency_of]

/-- Claim C8, counterexample: a store with exactly five same-hour score
samples (all equal to 50, population stdev 0 < 10) is reported as NOT
stable — the source demands strictly more than 5 samples, not at least 5. -/
theorem history_c8_counterexample :
    (get_history_analysis
        (.ok (List.replicate 5 { bytes := 0, score := some 50, policy := false }))).is_stable_hour
      = false
    ∧ ((List.replicate 5 ({ bytes := 0, score := some 50, policy := false } : RowRes)).filterMap
        RowRes.score).length = 5
    ∧ pvariance ((List.replicate 5 ({ bytes := 0, score := some 50, policy := false } : RowRes)).filterMap
        RowRes.score) < 100 := by
  refine ⟨by with_unfolding_all rfl, by with_unfolding_all rfl, ?_⟩
  have h : pvariance ((List.replicate 5 ({ bytes := 0, score := some 50, policy := false } : RowRes)).filterMap
      RowRes.score) = 0 := by with_unfolding_all rfl
  rw [h]; norm_num

/-- Claim C8, amended: `is_stable_hour` is true iff strictly more than 5
(that is, at least 6) same-hour score samples exist in the last 7 days and
their population standard deviation is below 10 (equivalently, population
variance below 100); a missing store or a store-read failure yields the
fully-neutral context. -/
theorem history_c8_amended (rows : List RowRes) :
    ((get_history_analysis (.ok rows)).is_stable_hour = true ↔
      5 < (rows.filterMap RowRes.score).length
        ∧ pvariance (rows.filterMap RowRes.score) < 100)
    ∧ get_history_analysis (.error ()) = neutral_history := by
  constructor
  · simp [get_history_analysis]
  · rfl

/-- Claim C5: verdict selection tests the likelihoods in the fixed order
radio, congestion, policy against their maximum; below 0.4 the verdict is
always `Inconclusive / Gathering Data`; radio breaks ties over congestion
and policy, congestion over policy (so `Mixed Signals` is unreachable), and
`radio = congestion = 0.6, policy = 0.2` selects radio's label. -/
theorem get_verdict_c5 (r c p : ℚ) :
    (max r (max c p) < 2/5 → get_verdict r c p = ("Inconclusive / Gathering Data"))
    ∧ (2/5 ≤ max r (max c p) → r = max r (max c p) →
        get_verdict r c p = ("Radio Impairment Likely"))
    ∧ (2/5 ≤ max r (max c p) → r ≠ max r (max c p) → c = max r (max c p) →
        get_verdict r c p = ("Congestion Indicators Present"))
    ∧ (2/5 ≤ max r (max c p) → r ≠ max r (max c p) → c ≠ max r (max c p) →
        get_verdict r c p = ("Policy-Like Pattern Detected"))
    ∧ get_verdict (3/5) (3/5) (1/5) = ("Radio Impairment Likely") := by
  refine ⟨?_, ?_, ?_, ?_, by with_unfolding_all rfl⟩
  · intro h
    simp only [get_verdict]
    rw [if_pos h]
  · intro h hr
    simp only [get_verdict]
    rw [if_neg (not_lt.mpr h), if_pos hr]
  · intro h hr hc
    simp only [get_verdict]
    rw [if_neg (not_lt.mpr h), if_neg hr, if_pos hc]
  · intro h hr hc
    have hp : p = max r (max c p) := by
      rcases max_choice r (max c p) with h2 | h2
      · exact absurd h2.symm hr
      · rcases max_choice c p with h1 | h1
        · exact absurd (h2.trans h1).symm hc
        · exact (h2.trans h1).symm
    simp only [get_verdict]
    rw [if_neg (not_lt.mpr h), if_neg hr, if_neg hc, if_pos hp]

/-- Witness for C5 at concrete likelihoods `1, 1/2, 0`. -/
theorem get_verdict_c5_witness :
    get_verdict 1 (1/2) 0 = ("Radio Impairment Likely") :=
  (get_verdict_c5 1 (1/2) 0).2.1 (by norm_num [max_def]) (by norm_num [max_def])

/-- Claim C3, counterexample: on rf score 60 with a slow consistent
double-plateau probe, all three raw likelihoods are `0.4` (sum `1.2`), the
normalized values are all `19/60`, and rounding each to two decimals
returns `0.32 + 0.32 + 0.32 = 0.96 > 0.95`: the *returned* likelihoods can
exceed the `0.95` cap. -/
theorem analyze_c3_counterexample :
    analyze (some (test_signal (some 60))) (some test_network_c3) none =
      .ok { radio_likelihood := 8/25, congestion_likelihood := 8/25,
            policy_likelihood := 8/25, verdict := ("Inconclusive / Gathering Data"),
            consistency_score := 1/2 }
    ∧ ¬ ((8:ℚ)/25 + 8/25 + 8/25 ≤ 19/20) := by
  refine ⟨by with_unfolding_all rfl, by norm_num⟩

/-- Claim C3, amended: the post-normalization, pre-rounding likelihoods of
`analyze` always sum to at most 0.95, and when the raw sum is already at
most 0.95 normalization leaves the triple unchanged; the dict returned by
`analyze` holds these values rounded to two decimals, and that rounded sum
can reach 0.96. -/
theorem analyze_c3_amended (radio congestion policy r c p : ℚ)
    (h : (r, c, p) = if radio + congestion + policy > 19/20
        then normalize_likelihoods radio congestion policy (radio + congestion + policy)
        else (radio, congestion, policy)) :
    r + c + p ≤ 19/20
    ∧ (radio + congestion + policy ≤ 19/20 → (r, c, p) = (radio, congestion, policy)) := by
  by_cases hgt : radio + congestion + policy > 19/20
  · rw [if_pos hgt] at h
    have hne : radio + congestion + policy ≠ 0 :=
      ne_of_gt (lt_trans (by norm_num) hgt)
    simp only [normalize_likelihoods, Prod.mk.injEq] at h
    obtain ⟨h1, h2, h3⟩ := h
    subst h1; subst h2; subst h3
    constructor
    · have hsum : radio * (19/20 / (radio + congestion + policy))
          + congestion * (19/20 / (radio + congestion + policy))
          + policy * (19/20 / (radio + congestion + policy)) = 19/20 := by
        field_simp
        ring
      linarith [hsum]
    · intro hle
      exact absurd hgt (not_lt.mpr hle)
  · rw [if_neg hgt] at h
    simp only [Prod.mk.injEq] at h
    obtain ⟨h1, h2, h3⟩ := h
    subst h1; subst h2; subst h3
    exact ⟨le_of_not_lt hgt, fun _ => rfl⟩

/-- Witness for the amended C3 statement: raw likelihoods `0.4, 0.4, 0.4`
normalize to `19/60` each. -/
theorem analyze_c3_amended_witness :
    (19:ℚ)/60 + 19/60 + 19/60 ≤ 19/20
    ∧ ((2:ℚ)/5 + 2/5 + 2/5 ≤ 19/20 →
        ((19:ℚ)/60, (19:ℚ)/60, (19:ℚ)/60) = ((2:ℚ)/5, (2:ℚ)/5, (2:ℚ)/5)) :=
  analyze_c3_amended (2/5) (2/5) (2/5) (19/60) (19/60) (19/60) (by with_unfolding_all rfl)

/-- Claim C6: a throughput test is triggered only when the daily counter is
below the cap (12) and either more than the 4 h baseline interval has
elapsed, or PSI exceeds 50 and more than the 900 s cooldown has elapsed;
at the cap nothing runs regardless of PSI or elapsed time; and the counter
and last-test timestamp advance exactly on a successful run, staying
untouched on failure. -/
theorem execute_speedtest_c6 (st : BudgetState) (psi nowT : ℚ) (outcome : Option Unit)
    (st1 : BudgetState) (trig : Bool) (res1 : Option Unit)
    (h : execute_speedtest_if_needed st psi nowT outcome = (st1, trig, res1)) :
    (trig = true → st.daily_tests_count < MAX_DAILY_tests
      ∧ (nowT - st.last_speedtest_time > BASELINE_INTERVAL_SECONDS
         ∨ (psi > PSI_TRIGGER_THRESHOLD ∧ nowT - st.last_speedtest_time > 900)))
    ∧ (MAX_DAILY_tests ≤ st.daily_tests_count → trig = false ∧ st1 = st)
    ∧ (outcome = none → st1 = st)
    ∧ (trig = false → st1 = st)
    ∧ (trig = true → ∀ u : Unit, outcome = some u →
        st1.daily_tests_count = st.daily_tests_count + 1 ∧ st1.last_speedtest_time = nowT) := by
  cases outcome with
  | none =>
    simp only [execute_speedtest_if_needed] at h
    split_ifs at h with hcap hcond <;>
      simp only [Prod.mk.injEq] at h <;>
      obtain ⟨h1, h2, h3⟩ := h <;>
      subst h1 <;> subst h2 <;> subst h3 <;>
      refine ⟨?_, ?_, ?_, ?_, ?_⟩ <;>
      simp_all [MAX_DAILY_tests]
  | some u =>
    simp only [execute_speedtest_if_needed] at h
    split_ifs at h with hcap hcond <;>
      simp only [Prod.mk.injEq] at h <;>
      obtain ⟨h1, h2, h3⟩ := h <;>
      subst h1 <;> subst h2 <;> subst h3 <;>
      refine ⟨?_, ?_, ?_, ?_, ?_⟩ <;>
      simp_all [MAX_DAILY_tests]

/-- Witness for C6: with the daily counter at the cap, no test runs and the
budget state is unchanged. -/
theorem execute_speedtest_c6_witness :
    false = false
    ∧ ({ daily_tests_count := 12, last_speedtest_time := 0 } : BudgetState)
      = { daily_tests_count := 12, last_speedtest_time := 0 } :=
  (execute_speedtest_c6 { daily_tests_count := 12, last_speedtest_time := 0 } 100 1000000
      (some ()) { daily_tests_count := 12, last_speedtest_time := 0 } false none
      (by with_unfolding_all rfl)).2.1 (by norm_num [MAX_DAILY_tests])

/-- Claim C7, counterexample: when the baseline ping fails (`None`) but
in-flight ping samples exist (here a single 100 ms sample), the source uses
`base_latency = 0` and reports `latency_under_load_diff = 100`, not the `0`
the claim promises for a missing baseline. -/
theorem aggregate_c7_counterexample :
    (aggregate_forensic id none [test_dl [100]]).map Aggregated.latency_under_load_diff
      = some 100
    ∧ (100 : ℚ) ≠ 0 :=
  ⟨by with_unfolding_all rfl, by norm_num⟩

/-- Claim C7, amended: `latency_under_load_diff` is `0` exactly when there
are no in-flight ping samples; otherwise it is the mean of all in-flight
ping samples across endpoints minus the baseline RTT, where a failed
baseline measurement contributes `0` (so with no baseline the raw mean is
reported, not `0`). -/
theorem aggregate_c7_amended (sq : ℚ → ℚ) (ping_before : Option ℚ) (results : List DlResult)
    (agg : Aggregated) (h : aggregate_forensic sq ping_before results = some agg) :
    ((results.map DlResult.ping_during).flatten = [] → agg.latency_under_load_diff = 0)
    ∧ ((results.map DlResult.ping_during).flatten ≠ [] →
        agg.latency_under_load_diff =
          mean ((results.map DlResult.ping_during).flatten) - ping_before.getD 0) := by
  cases results with
  | nil => simp [aggregate_forensic] at h
  | cons first_success rest =>
    simp only [aggregate_forensic, Option.some.injEq] at h
    subst h
    dsimp only
    constructor
    · intro hp
      rw [if_pos (by rw [List.isEmpty_iff]; exact hp)]
    · intro hp
      rw [if_neg (by rw [List.isEmpty_iff]; exact hp)]

/-- Witness for the amended C7 statement: one 100 ms in-flight sample over
a 20 ms baseline gives a difference of 80 ms. -/
theorem aggregate_c7_amended_witness :
    test_agg_c7.latency_under_load_diff
      = mean (([test_dl [100]].map DlResult.ping_during).flatten) - (some (20:ℚ)).getD 0 :=
  (aggregate_c7_amended id (some 20) [test_dl [100]] test_agg_c7
    (by with_unfolding_all rfl)).2 (by simp [test_dl])

/-- Helper for C9: one successful `tick` preserves the session invariant. -/
theorem tick_preserves_session_invariant {st st1 : MonState} {d : Option SignalData}
    {row : Option CellRow} (hinv : session_invariant st)
    (h : tick st d = .ok (st1, row)) : session_invariant st1 := by
  cases d with
  | none =>
    simp only [tick, Except.ok.injEq, Prod.mk.injEq] at h
    obtain ⟨rfl, rfl⟩ := h
    exact hinv
  | some sig =>
    simp only [tick] at h
    by_cases hkey : some (get_key_and_score sig).1 ≠ st.current_key
    · rw [if_pos hkey] at h
      cases hs : st.current_session with
      | none =>
        rw [handle_context_change, hs] at h
        simp only [Except.ok.injEq, Prod.mk.injEq] at h
        obtain ⟨rfl, rfl⟩ := h
        right
        refine ⟨_, rfl, ?_⟩
        simp [update_session]
      | some s =>
        rw [handle_context_change, hs] at h
        dsimp only at h
        by_cases hzero : s.sample_count = 0
        · rw [if_pos hzero] at h
          simp at h
        · rw [if_neg hzero] at h
          simp only [Except.ok.injEq, Prod.mk.injEq] at h
          obtain ⟨rfl, rfl⟩ := h
          right
          refine ⟨_, rfl, ?_⟩
          simp [update_session]
    · rw [if_neg hkey] at h
      simp only [Except.ok.injEq, Prod.mk.injEq] at h
      obtain ⟨rfl, rfl⟩ := h
      rcases hinv with hnone | ⟨s, hs, hc⟩
      · left
        simp [update_session, hnone]
      · right
        simp only [update_session, hs]
        exact ⟨_, rfl, Nat.le_succ_of_le hc⟩

/-- Helper for C9: every state reachable through ticks satisfies the
session invariant. -/
theorem reachable_session_invariant {st : MonState} (h : Reachable st) :
    session_invariant st := by
  induction h with
  | init => exact Or.inl rfl
  | step hr htick ih => exact tick_preserves_session_invariant ih htick

/-- Claim C9: from every orchestrator state reachable through ticks, the
next tick never errors (the `total_score / sample_count` finalization never
divides by zero), and if the current session holds zero accumulated samples
no cell-history row is emitted on a cell-key change. -/
theorem tick_c9 (st : MonState) (d : Option SignalData) (hreach : Reachable st) :
    (tick st d).isOk = true
    ∧ (session_samples st = 0 → emitted_row (tick st d) = none) := by
  have hinv := reachable_session_invariant hreach
  cases d with
  | none => exact ⟨rfl, fun _ => rfl⟩
  | some sig =>
    by_cases hkey : some (get_key_and_score sig).1 ≠ st.current_key
    · cases hs : st.current_session with
      | none =>
        constructor
        · simp only [tick, if_pos hkey, handle_context_change, hs]
          rfl
        · intro h0
          simp only [tick, if_pos hkey, handle_context_change, hs, emitted_row]
      | some s =>
        have hc : 1 ≤ s.sample_count := by
          rcases hinv with hnone | ⟨s2, hs2, hc2⟩
          · rw [hs] at hnone; cases hnone
          · rw [hs] at hs2; cases hs2; exact hc2
        have hzero : ¬ s.sample_count = 0 := by omega
        constructor
        · simp only [tick, if_pos hkey, handle_context_change, hs]
          rw [if_neg hzero]
          rfl
        · intro h0
          exact absurd (by simpa [session_samples, hs] using h0) hzero
    · constructor
      · simp only [tick, if_neg hkey]
        rfl
      · intro h0
        simp only [tick, if_neg hkey, emitted_row]

/-- Witness for C9 at the initial state with a concrete signal sample. -/
theorem tick_c9_witness :
    (tick initMonState (some (test_signal (some 50)))).isOk = true
    ∧ (session_samples initMonState = 0 →
        emitted_row (tick initMonState (some (test_signal (some 50)))) = none) :=
  tick_c9 initMonState (some (test_signal (some 50))) Reachable.init
